import Mathlib

/-!
Shallow embedding of the arcade-shooter source (src/index.js), restricted to
the later generation of the game (the first half of the file), which the
design document treats as the live implementation.

Modelling conventions:
* JS numbers are real numbers.
* Math.random() draws are supplied by an explicit tape of values
  (a function from positions to reals, with draws assumed in the unit
  interval where needed) together with a cursor threaded through the
  simulation.
* performance.now() / 1000 is an explicit argument named now.
* A JS number that can be NaN because it comes from parseInt is modelled
  as an Option; the hex-parsing model uses rationals so that witnesses can
  be checked by evaluation.
* Float32Array writes are modelled on lists, with out-of-bounds writes
  silently dropped, matching typed-array semantics.
-/

noncomputable section

def lerp (a b t : ℝ) : ℝ := a + (b - a) * t

structure Color where
  r : ℝ
  g : ℝ
  b : ℝ
  a : ℝ

def Color.withAlpha (c : Color) (a : ℝ) : Color :=
  { c with a := a }

def Color.grayScale (c : Color) (t : ℝ) : Color :=
  let x := (c.r + c.g + c.b) / 3
  ⟨lerp c.r x t, lerp c.g x t, lerp c.b x t, c.a⟩

structure V2 where
  x : ℝ
  y : ℝ

def V2.add (v w : V2) : V2 := ⟨v.x + w.x, v.y + w.y⟩

def V2.sub (v w : V2) : V2 := ⟨v.x - w.x, v.y - w.y⟩

def V2.scale (v : V2) (s : ℝ) : V2 := ⟨v.x * s, v.y * s⟩

def V2.len (v : V2) : ℝ := Real.sqrt (v.x * v.x + v.y * v.y)

def V2.normalize (v : V2) : V2 :=
  if v.len = 0 then ⟨0, 0⟩ else ⟨v.x / v.len, v.y / v.len⟩

def V2.dist (v w : V2) : ℝ := (v.sub w).len

def V2.polar (mag dir : ℝ) : V2 := ⟨Real.cos dir * mag, Real.sin dir * mag⟩

/-- C6: for every vector with nonzero length, normalize yields a unit-length
vector, and the live implementation maps the zero vector to the zero vector. -/
theorem C6_normalize_unit_or_zero (v : V2) :
    (v.len ≠ 0 → (V2.normalize v).len = 1) ∧ V2.normalize ⟨0, 0⟩ = ⟨0, 0⟩ := by
  constructor
  · intro h
    have hnn : 0 ≤ v.x * v.x + v.y * v.y :=
      add_nonneg (mul_self_nonneg _) (mul_self_nonneg _)
    have hsq : v.len * v.len = v.x * v.x + v.y * v.y := Real.mul_self_sqrt hnn
    rw [V2.normalize, if_neg h, V2.len]
    have hone : v.x / v.len * (v.x / v.len) + v.y / v.len * (v.y / v.len) = 1 := by
      field_simp
      linarith [hsq]
    simp only
    rw [hone, Real.sqrt_one]
  · rw [V2.normalize, if_pos]
    rw [V2.len]
    simp

/-- Witness for C6 at a concrete nonzero vector. -/
theorem C6_normalize_unit_or_zero_witness :
    V2.len ⟨3, 4⟩ ≠ 0 ∧ (V2.normalize ⟨3, 4⟩).len = 1 := by
  have h : V2.len ⟨3, 4⟩ ≠ 0 := by
    rw [V2.len]
    exact Real.sqrt_ne_zero'.mpr (by norm_num)
  exact ⟨h, (C6_normalize_unit_or_zero ⟨3, 4⟩).1 h⟩

/-!
Model of Color.hex.  The source matches the string against the pattern
hash, then three groups of two characters from the class [0-9a-z] with the
case-insensitive flag, so each matched character is an ASCII digit or an
ASCII letter of either case; each two-character group is then parsed with
parseInt(g, 16).  parseInt returns NaN when the group has no usable hex
prefix, so channels are modelled as Option values (none is NaN), with
rational magnitudes so that witnesses evaluate.
-/

/-- Character class matched by one position of the source pattern
([0-9a-z] under the i flag): digit or ASCII letter of either case. -/
def regexWordChar (c : Char) : Bool :=
  ( '0' ≤ c && c ≤ '9') || ( 'a' ≤ c && c ≤ 'z') || ( 'A' ≤ c && c ≤ 'Z')

/-- Value of a single hexadecimal digit, if the character is one. -/
def hexDigitVal (c : Char) : Option ℕ :=
  if '0' ≤ c ∧ c ≤ '9' then some (c.toNat - '0'.toNat)
  else if 'a' ≤ c ∧ c ≤ 'f' then some (c.toNat - 'a'.toNat + 10)
  else if 'A' ≤ c ∧ c ≤ 'F' then some (c.toNat - 'A'.toNat + 10)
  else none

/-- JS parseInt with radix 16 applied to a two-character group drawn from
the matched class: a leading 0x or 0X is stripped (leaving nothing, hence
NaN); otherwise the longest hex-digit prefix is parsed, NaN if empty. -/
def jsParseIntHex2 (c1 c2 : Char) : Option ℕ :=
  if c1 = '0' ∧ (c2 = 'x' ∨ c2 = 'X') then none
  else
    match hexDigitVal c1, hexDigitVal c2 with
    | some v1, some v2 => some (16 * v1 + v2)
    | some v1, none => some v1
    | none, _ => none

/-- Leftmost match of the source regex: the first position holding a hash
followed by six characters of the class, returning the six characters. -/
def findColorMatch : List Char → Option (Char × Char × Char × Char × Char × Char)
  | [] => none
  | c :: rest =>
    if c = '#' then
      match rest with
      | c1 :: c2 :: c3 :: c4 :: c5 :: c6 :: _ =>
        if regexWordChar c1 && regexWordChar c2 && regexWordChar c3 &&
            regexWordChar c4 && regexWordChar c5 && regexWordChar c6 then
          some (c1, c2, c3, c4, c5, c6)
        else
          findColorMatch rest
      | _ => findColorMatch rest
    else
      findColorMatch rest

/-- Color as produced by Color.hex: channels may be NaN (none). -/
structure HexColor where
  r : Option ℚ
  g : Option ℚ
  b : Option ℚ
  a : ℚ
  deriving DecidableEq

/-- Color.hex from the source: regex match, then parseInt on each group
divided by 255, alpha 1; a throw is modelled as an error result. -/
def Color.hex (hexcolor : String) : Except String HexColor :=
  match findColorMatch hexcolor.data with
  | some (c1, c2, c3, c4, c5, c6) =>
    .ok { r := (jsParseIntHex2 c1 c2).map (fun v => (v : ℚ) / 255),
          g := (jsParseIntHex2 c3 c4).map (fun v => (v : ℚ) / 255),
          b := (jsParseIntHex2 c5 c6).map (fun v => (v : ℚ) / 255),
          a := 1 }
  | none => .error ("Could not parse " ++ hexcolor ++ " as color")

/-- Refinement-side predicate following the claim words: the string
contains a color pattern of a hash followed by six hexadecimal digits. -/
def containsHexColorPattern : List Char → Bool
  | [] => false
  | c :: rest =>
    ((c == '#') &&
      match rest with
      | c1 :: c2 :: c3 :: c4 :: c5 :: c6 :: _ =>
        (hexDigitVal c1).isSome && (hexDigitVal c2).isSome &&
          (hexDigitVal c3).isSome && (hexDigitVal c4).isSome &&
          (hexDigitVal c5).isSome && (hexDigitVal c6).isSome
      | _ => false)
    || containsHexColorPattern rest

/-- Counterexample to C5: the input does not contain any valid
6-hex-digit color pattern, yet Color.hex succeeds (the regex class is all
alphanumerics under the i flag, and parseInt turns the groups into NaN),
so Color.hex does not raise exactly on non-hex inputs as claimed. -/
theorem C5_counterexample :
    containsHexColorPattern "#zzzzzz".data = false ∧
    (Color.hex "#zzzzzz").isOk = true ∧
    Color.hex "#zzzzzz" = .ok ⟨none, none, none, 1⟩ := by
  refine ⟨by decide, by decide, by rfl⟩

/-- C5 amended: Color.hex succeeds exactly on strings containing a hash
followed by six case-insensitive alphanumeric characters; it raises the
parse error exactly when that pattern does not match, and when the first
match consists of hex-digit groups the channels are the parsed byte
values divided by 255 with alpha 1. -/
theorem C5_hex_ok_iff (s : String) :
    ((Color.hex s).isOk = true ↔ (findColorMatch s.data).isSome = true) ∧
    (findColorMatch s.data = none →
      Color.hex s = .error ("Could not parse " ++ s ++ " as color")) ∧
    (∀ c1 c2 c3 c4 c5 c6 v1 v2 v3,
      findColorMatch s.data = some (c1, c2, c3, c4, c5, c6) →
      jsParseIntHex2 c1 c2 = some v1 →
      jsParseIntHex2 c3 c4 = some v2 →
      jsParseIntHex2 c5 c6 = some v3 →
      Color.hex s =
        .ok ⟨some ((v1 : ℚ) / 255), some ((v2 : ℚ) / 255), some ((v3 : ℚ) / 255), 1⟩) := by
  refine ⟨?_, ?_, ?_⟩
  · rcases h : findColorMatch s.data with _ | ⟨c1, c2, c3, c4, c5, c6⟩ <;>
      simp [Color.hex, h, Except.isOk, Except.toBool]
  · intro h
    simp [Color.hex, h]
  · intro c1 c2 c3 c4 c5 c6 v1 v2 v3 h h1 h2 h3
    simp [Color.hex, h, h1, h2, h3]

/-- Witness for C5 on a concrete valid color string. -/
theorem C5_hex_ok_iff_witness :
    findColorMatch "#ff0080".data = some ( 'f', 'f', '0', '0', '8', '0') ∧
    Color.hex "#ff0080" =
      .ok ⟨some ((255 : ℚ) / 255), some ((0 : ℚ) / 255), some ((128 : ℚ) / 255), 1⟩ := by
  refine ⟨by decide, (C5_hex_ok_iff "#ff0080").2.2 'f' 'f' '0' '0' '8' '0' 255 0 128
    (by decide) (by decide) (by decide) (by decide)⟩

/-! Trail: a decaying history of positions. -/

def TRAIL_COOLDOWN : ℝ := 1 / 60

structure TrailDot where
  pos : V2
  a : ℝ

structure Trail where
  trail : List TrailDot
  cooldown : ℝ
  disabled : Bool
  radius : ℝ
  color : Color
  rate : ℝ

/-- The while loop of Trail.update: shift from the front while the front
sample's intensity is at most zero. -/
def Trail.evict : List TrailDot → List TrailDot
  | [] => []
  | d :: ds => if d.a ≤ 0 then Trail.evict ds else d :: ds

def Trail.update (t : Trail) (dt : ℝ) : Trail :=
  { t with
    trail := Trail.evict (t.trail.map fun d => { d with a := d.a - t.rate * dt }),
    cooldown := t.cooldown - dt }

def Trail.push (t : Trail) (pos : V2) : Trail :=
  if t.disabled = false ∧ t.cooldown ≤ 0 then
    { t with trail := t.trail ++ [⟨pos, 1⟩], cooldown := TRAIL_COOLDOWN }
  else t

theorem Trail.evict_pos {l : List TrailDot}
    (h : (l.map TrailDot.a).Sorted (· ≤ ·)) :
    ∀ d ∈ Trail.evict l, 0 < d.a := by
  induction l with
  | nil => intro d hd; simp [Trail.evict] at hd
  | cons x xs ih =>
    rw [List.map_cons, List.sorted_cons] at h
    intro d hd
    rw [Trail.evict] at hd
    by_cases hx : x.a ≤ 0
    · rw [if_pos hx] at hd
      exact ih h.2 d hd
    · rw [if_neg hx] at hd
      push_neg at hx
      rcases List.mem_cons.mp hd with rfl | hmem
      · exact hx
      · have hxa := h.1 d.a (List.mem_map_of_mem TrailDot.a hmem)
        linarith

theorem Trail.evict_eq_nil {l : List TrailDot} (h : ∀ d ∈ l, d.a ≤ 0) :
    Trail.evict l = [] := by
  induction l with
  | nil => rfl
  | cons x xs ih =>
    rw [Trail.evict, if_pos (h x (by simp))]
    exact ih fun d hd => h d (by simp [hd])

theorem Trail.sorted_decay {l : List TrailDot} (c : ℝ)
    (h : (l.map TrailDot.a).Sorted (· ≤ ·)) :
    (((l.map fun d => { d with a := d.a - c }) : List TrailDot).map
      TrailDot.a).Sorted (· ≤ ·) := by
  have hmap : ((l.map fun d => { d with a := d.a - c }) : List TrailDot).map TrailDot.a
      = (l.map TrailDot.a).map fun x => x - c := by
    rw [List.map_map, List.map_map]
    rfl
  rw [hmap]
  exact List.Pairwise.map _ (fun a b hab => sub_le_sub_right hab c) h

/-- Counterexample to C4: a trail whose front sample has intensity above
one (hence not chronologically ordered with the pushed sample) keeps both
a sample of nonpositive intensity and the freshly pushed sample after an
update with rate times dt equal to one. -/
theorem C4_counterexample :
    (1 : ℝ) ≤ (Trail.mk [⟨⟨0, 0⟩, 5⟩] 0 false 69 ⟨1, 1, 1, 1⟩ 1).rate * 1 ∧
    (((Trail.mk [⟨⟨0, 0⟩, 5⟩] 0 false 69 ⟨1, 1, 1, 1⟩ 1).push ⟨1, 1⟩).update 1).trail =
      [⟨⟨0, 0⟩, 4⟩, ⟨⟨1, 1⟩, 0⟩] ∧
    (∃ d ∈ (((Trail.mk [⟨⟨0, 0⟩, 5⟩] 0 false 69 ⟨1, 1, 1, 1⟩ 1).push ⟨1, 1⟩).update 1).trail,
      d.a ≤ 0) := by
  have hres :
      (((Trail.mk [⟨⟨0, 0⟩, 5⟩] 0 false 69 ⟨1, 1, 1, 1⟩ 1).push ⟨1, 1⟩).update 1).trail =
        [⟨⟨0, 0⟩, 4⟩, ⟨⟨1, 1⟩, 0⟩] := by
    rw [Trail.push, if_pos (by norm_num), Trail.update]
    simp only [List.map_cons, List.map_nil, List.cons_append, List.nil_append]
    rw [Trail.evict, if_neg (by norm_num)]
    norm_num
  refine ⟨by norm_num, hres, ?_⟩
  rw [hres]
  exact ⟨⟨⟨1, 1⟩, 0⟩, by simp, le_refl 0⟩

/-- C4 amended: Trail.update decays every intensity by rate times dt and
evicts the nonpositive prefix; provided the trail's intensities are
non-decreasing from front to back (which chronological insertion
maintains), no sample with nonpositive intensity survives an update; and
pushing one sample onto a ready, non-disabled trail whose intensities are
all at most one and then advancing with rate times dt at least one
empties the trail, in particular removing the pushed sample. -/
theorem C4_trail_decay_eviction :
    (∀ (t : Trail) (dt : ℝ), (t.trail.map TrailDot.a).Sorted (· ≤ ·) →
      ∀ d ∈ (t.update dt).trail, 0 < d.a) ∧
    (∀ (t : Trail) (dt : ℝ) (q : V2), t.disabled = false → t.cooldown ≤ 0 →
      (∀ d ∈ t.trail, d.a ≤ 1) → 1 ≤ t.rate * dt →
      ((t.push q).update dt).trail = []) := by
  constructor
  · intro t dt hs d hd
    rw [Trail.update] at hd
    exact Trail.evict_pos (Trail.sorted_decay (t.rate * dt) hs) d hd
  · intro t dt q hdis hcd hle hrate
    rw [Trail.push, if_pos ⟨hdis, hcd⟩, Trail.update]
    apply Trail.evict_eq_nil
    intro d hd
    rcases List.mem_map.mp hd with ⟨e, he, rfl⟩
    have hea : e.a ≤ 1 := by
      rcases List.mem_append.mp he with h1 | h2
      · exact hle e h1
      · have : e = ⟨q, 1⟩ := by simpa using h2
        rw [this]
    simp only
    linarith

/-- Witness for C4: a chronologically sorted one-sample trail keeps only
positive intensities after a mild update, and pushing onto an empty ready
trail then decaying by at least one empties it. -/
theorem C4_trail_decay_eviction_witness :
    (((Trail.mk [⟨⟨0, 0⟩, 1⟩] 0 false 69 ⟨1, 1, 1, 1⟩ 1).trail.map
        TrailDot.a).Sorted (· ≤ ·) ∧
      ∀ d ∈ ((Trail.mk [⟨⟨0, 0⟩, 1⟩] 0 false 69 ⟨1, 1, 1, 1⟩ 1).update (1 / 2)).trail,
        0 < d.a) ∧
    (((Trail.mk ([] : List TrailDot) 0 false 69 ⟨1, 1, 1, 1⟩ 3).push ⟨2, 2⟩).update 1).trail
      = [] := by
  constructor
  · refine ⟨by simp, ?_⟩
    exact (C4_trail_decay_eviction.1 (Trail.mk [⟨⟨0, 0⟩, 1⟩] 0 false 69 ⟨1, 1, 1, 1⟩ 1)
      (1 / 2) (by simp))
  · exact C4_trail_decay_eviction.2 (Trail.mk ([] : List TrailDot) 0 false 69 ⟨1, 1, 1, 1⟩ 3)
      1 ⟨2, 2⟩ rfl le_rfl (by simp) (by norm_num)

/-! Game constants from the source (later generation). -/

def PLAYER_COLOR : Color := ⟨244 / 255, 56 / 255, 65 / 255, 1⟩
def PLAYER_SPEED : ℝ := 1000
def PLAYER_RADIUS : ℝ := 69
def PLAYER_MAX_HEALTH : ℝ := 100
def PLAYER_SHOOT_COOLDOWN : ℝ := 0.25
def PLAYER_TRAIL_RATE : ℝ := 3
def TUTORIAL_POPUP_SPEED : ℝ := 1.7
def BULLET_RADIUS : ℝ := 42
def BULLET_SPEED : ℝ := 2000
def BULLET_LIFETIME : ℝ := 5
def ENEMY_SPEED : ℝ := PLAYER_SPEED / 3
def ENEMY_RADIUS : ℝ := PLAYER_RADIUS
def ENEMY_SPAWN_ANIMATION_SPEED : ℝ := ENEMY_RADIUS * 8
def ENEMY_COLOR : Color := ⟨158 / 255, 149 / 255, 199 / 255, 1⟩
def ENEMY_SPAWN_COOLDOWN : ℝ := 1
def ENEMY_SPAWN_GROWTH : ℝ := 1.01
def ENEMY_SPAWN_DISTANCE : ℝ := 1500
def ENEMY_DESPAWN_DISTANCE : ℝ := ENEMY_SPAWN_DISTANCE * 2
def ENEMY_DAMAGE : ℝ := PLAYER_MAX_HEALTH / 5
def ENEMY_KILL_HEAL : ℝ := PLAYER_MAX_HEALTH / 10
def ENEMY_KILL_SCORE : ℕ := 100
def ENEMY_TRAIL_RATE : ℝ := 2
def PARTICLE_MAX_LIFETIME : ℝ := 1
def CIRCLE_BATCH_CAPACITY : ℕ := 1024
def VEC2_COUNT : ℕ := 2
def RGBA_COUNT : ℕ := 4

/-! Entities. -/

structure Particle where
  pos : V2
  vel : V2
  lifetime : ℝ
  radius : ℝ
  color : Color

def Particle.update (p : Particle) (dt : ℝ) : Particle :=
  { p with pos := p.pos.add (p.vel.scale dt), lifetime := p.lifetime - dt }

/-- particleBurst from the source, with the Math.random() draws read off
the tape starting at cursor k: first the count draw (range 0 to 50, the
JS loop running ceil many iterations), then per particle the magnitude,
angle, lifetime and radius draws in argument order.  Returns the extended
particle list and the new cursor. -/
def particleBurst (tape : ℕ → ℝ) (k : ℕ) (particles : List Particle)
    (center : V2) (color : Color) : List Particle × ℕ :=
  let count := ⌈tape k * 50⌉₊
  (particles ++ (List.range count).map fun i =>
    { pos := center,
      vel := V2.polar (tape (k + 1 + 4 * i) * BULLET_SPEED)
        (tape (k + 2 + 4 * i) * (2 * Real.pi)),
      lifetime := tape (k + 3 + 4 * i) * PARTICLE_MAX_LIFETIME,
      radius := tape (k + 4 + 4 * i) * 10 + 10,
      color := color },
   k + 1 + 4 * count)

structure Enemy where
  pos : V2
  ded : Bool
  radius : ℝ
  trail : Trail

def Enemy.spawn (pos : V2) : Enemy :=
  ⟨pos, false, 0, ⟨[], 0, false, ENEMY_RADIUS, ENEMY_COLOR, ENEMY_TRAIL_RATE⟩⟩

def Enemy.update (e : Enemy) (dt : ℝ) (followPos : V2) : Enemy :=
  let vel := ((followPos.sub e.pos).normalize).scale (ENEMY_SPEED * dt)
  let trail1 := e.trail.push e.pos
  let pos1 := e.pos.add vel
  let trail2 := trail1.update dt
  let radius1 :=
    if e.radius < ENEMY_RADIUS then e.radius + ENEMY_SPAWN_ANIMATION_SPEED * dt
    else ENEMY_RADIUS
  { e with pos := pos1, trail := trail2, radius := radius1 }

structure Bullet where
  pos : V2
  vel : V2
  lifetime : ℝ

def Bullet.update (b : Bullet) (dt : ℝ) : Bullet :=
  { b with pos := b.pos.add (b.vel.scale dt), lifetime := b.lifetime - dt }

/-- Counterexample to C7: an enemy whose spawn-in radius is just below
full size overshoots the full enemy radius on the next update (the clamp
only takes effect on the update after full size is reached). -/
theorem C7_counterexample :
    ({ Enemy.spawn ⟨0, 0⟩ with radius := 68 } : Enemy).radius < ENEMY_RADIUS ∧
    ENEMY_RADIUS <
      (({ Enemy.spawn ⟨0, 0⟩ with radius := 68 } : Enemy).update (1 / 60) ⟨0, 0⟩).radius := by
  constructor
  · norm_num [ENEMY_RADIUS, PLAYER_RADIUS]
  · rw [Enemy.update]
    simp only
    rw [if_pos (by norm_num [ENEMY_RADIUS, PLAYER_RADIUS])]
    norm_num [ENEMY_RADIUS, PLAYER_RADIUS, ENEMY_SPAWN_ANIMATION_SPEED]

/-- C7 amended: while below the full enemy radius the spawn-in radius
grows by exactly the animation speed times dt per update (so the crossing
update may overshoot the full radius by up to that amount), any update
starting at or above full radius clamps it to exactly the full radius,
and for nonnegative dt the post-update radius never exceeds the full
radius plus the animation speed times dt. -/
theorem C7_radius_growth (e : Enemy) (dt : ℝ) (followPos : V2) :
    (e.radius < ENEMY_RADIUS →
      (e.update dt followPos).radius = e.radius + ENEMY_SPAWN_ANIMATION_SPEED * dt) ∧
    (ENEMY_RADIUS ≤ e.radius → (e.update dt followPos).radius = ENEMY_RADIUS) ∧
    (0 ≤ dt →
      (e.update dt followPos).radius ≤ ENEMY_RADIUS + ENEMY_SPAWN_ANIMATION_SPEED * dt) := by
  have hrad : (e.update dt followPos).radius =
      if e.radius < ENEMY_RADIUS then e.radius + ENEMY_SPAWN_ANIMATION_SPEED * dt
      else ENEMY_RADIUS := by
    rw [Enemy.update]
  refine ⟨fun h => by rw [hrad, if_pos h], fun h => by rw [hrad, if_neg (not_lt.mpr h)], ?_⟩
  intro hdt
  rw [hrad]
  by_cases h : e.radius < ENEMY_RADIUS
  · rw [if_pos h]
    linarith
  · rw [if_neg h]
    have : 0 ≤ ENEMY_SPAWN_ANIMATION_SPEED * dt := by
      apply mul_nonneg _ hdt
      norm_num [ENEMY_SPAWN_ANIMATION_SPEED, ENEMY_RADIUS, PLAYER_RADIUS]
    linarith

/-- Witness for C7 at a freshly spawned enemy. -/
theorem C7_radius_growth_witness :
    (Enemy.spawn ⟨0, 0⟩).radius < ENEMY_RADIUS ∧
    ((Enemy.spawn ⟨0, 0⟩).update (1 / 60) ⟨0, 0⟩).radius =
      (Enemy.spawn ⟨0, 0⟩).radius + ENEMY_SPAWN_ANIMATION_SPEED * (1 / 60) := by
  have h : (Enemy.spawn ⟨0, 0⟩).radius < ENEMY_RADIUS := by
    norm_num [Enemy.spawn, ENEMY_RADIUS, PLAYER_RADIUS]
  exact ⟨h, (C7_radius_growth (Enemy.spawn ⟨0, 0⟩) (1 / 60) ⟨0, 0⟩).1 h⟩

/-!
Batch renderer model.  The per-instance Float32Array buffers are lists of
reals; a typed-array store to an out-of-range index is silently dropped,
which lset reproduces.  Only the CPU-visible renderer state is modelled
(instance counter and the three per-instance buffers); GL calls are
external effects.
-/

def lset {α : Type} : List α → ℕ → α → List α
  | [], _, _ => []
  | _ :: xs, 0, v => v :: xs
  | x :: xs, n + 1, v => x :: lset xs n v

theorem lset_length {α : Type} (l : List α) (i : ℕ) (v : α) :
    (lset l i v).length = l.length := by
  induction l generalizing i with
  | nil => rfl
  | cons x xs ih =>
    cases i with
    | zero => rfl
    | succ n => simp [lset, ih]

theorem lset_get_self {α : Type} (l : List α) (i : ℕ) (v : α) (h : i < l.length) :
    (lset l i v).get? i = some v := by
  induction l generalizing i with
  | nil => simp at h
  | cons x xs ih =>
    cases i with
    | zero => rfl
    | succ n =>
      simp only [lset, List.get?]
      exact ih n (by simpa using h)

theorem lset_get_ne {α : Type} (l : List α) (i j : ℕ) (v : α) (h : i ≠ j) :
    (lset l i v).get? j = l.get? j := by
  induction l generalizing i j with
  | nil => rfl
  | cons x xs ih =>
    cases i with
    | zero =>
      cases j with
      | zero => exact absurd rfl h
      | succ m => rfl
    | succ n =>
      cases j with
      | zero => rfl
      | succ m =>
        simp only [lset, List.get?]
        exact ih n m fun hnm => h (by rw [hnm])

structure RendererWebGL where
  circlesCount : ℕ
  circleCenterBufferData : List ℝ
  circleRadiusBufferData : List ℝ
  circleColorBufferData : List ℝ

/-- State after the constructor: zeroed buffers of the fixed capacities
and a zero instance counter. -/
def RendererWebGL.init : RendererWebGL :=
  ⟨0, List.replicate (VEC2_COUNT * CIRCLE_BATCH_CAPACITY) 0,
    List.replicate CIRCLE_BATCH_CAPACITY 0,
    List.replicate (RGBA_COUNT * CIRCLE_BATCH_CAPACITY) 0⟩

/-- Buffer sizes as allocated by the constructor. -/
def RendererWebGL.WF (r : RendererWebGL) : Prop :=
  r.circleCenterBufferData.length = VEC2_COUNT * CIRCLE_BATCH_CAPACITY ∧
  r.circleRadiusBufferData.length = CIRCLE_BATCH_CAPACITY ∧
  r.circleColorBufferData.length = RGBA_COUNT * CIRCLE_BATCH_CAPACITY

def RendererWebGL.fillCircle (r : RendererWebGL) (center : V2) (radius : ℝ)
    (color : Color) : RendererWebGL :=
  if r.circlesCount < CIRCLE_BATCH_CAPACITY then
    { circlesCount := r.circlesCount + 1,
      circleCenterBufferData :=
        lset (lset r.circleCenterBufferData (r.circlesCount * VEC2_COUNT + 0) center.x)
          (r.circlesCount * VEC2_COUNT + 1) center.y,
      circleRadiusBufferData := lset r.circleRadiusBufferData r.circlesCount radius,
      circleColorBufferData :=
        lset (lset (lset (lset r.circleColorBufferData
          (r.circlesCount * RGBA_COUNT + 0) color.r)
          (r.circlesCount * RGBA_COUNT + 1) color.g)
          (r.circlesCount * RGBA_COUNT + 2) color.b)
          (r.circlesCount * RGBA_COUNT + 3) color.a }
  else r

/-- clear resets the instance counter (the GL color-buffer clear is an
external effect; the instance buffers are kept and overwritten later). -/
def RendererWebGL.clear (r : RendererWebGL) : RendererWebGL :=
  { r with circlesCount := 0 }

/-- A frame's worth of fillCircle requests, issued in order. -/
def RendererWebGL.fillMany (r : RendererWebGL) : List (V2 × ℝ × Color) → RendererWebGL
  | [] => r
  | (c, rad, col) :: rest => (r.fillCircle c rad col).fillMany rest

theorem RendererWebGL.fillCircle_count (r : RendererWebGL) (c : V2) (rad : ℝ) (col : Color) :
    (r.fillCircle c rad col).circlesCount =
      if r.circlesCount < CIRCLE_BATCH_CAPACITY then r.circlesCount + 1
      else r.circlesCount := by
  rw [RendererWebGL.fillCircle]
  by_cases h : r.circlesCount < CIRCLE_BATCH_CAPACITY
  · rw [if_pos h, if_pos h]
  · rw [if_neg h, if_neg h]

theorem RendererWebGL.fillMany_count (reqs : List (V2 × ℝ × Color)) :
    ∀ r : RendererWebGL, r.circlesCount ≤ CIRCLE_BATCH_CAPACITY →
      (r.fillMany reqs).circlesCount =
        min (r.circlesCount + reqs.length) CIRCLE_BATCH_CAPACITY := by
  induction reqs with
  | nil =>
    intro r h
    simp only [RendererWebGL.fillMany, List.length_nil, Nat.add_zero]
    exact (Nat.min_eq_left h).symm
  | cons p rest ih =>
    intro r h
    rcases p with ⟨c, rad, col⟩
    rw [RendererWebGL.fillMany]
    by_cases hc : r.circlesCount < CIRCLE_BATCH_CAPACITY
    · have hcount : (r.fillCircle c rad col).circlesCount = r.circlesCount + 1 := by
        rw [RendererWebGL.fillCircle_count, if_pos hc]
      rw [ih _ (by rw [hcount]; exact hc), hcount]
      simp only [List.length_cons]
      ring_nf
    · have heq : r.fillCircle c rad col = r := by
        rw [RendererWebGL.fillCircle, if_neg hc]
      have hcap : r.circlesCount = CIRCLE_BATCH_CAPACITY := le_antisymm h (not_lt.mp hc)
      rw [heq, ih r h, hcap]
      simp only [List.length_cons]
      omega

/-- C8: below capacity, fillCircle writes center, radius and colour into
the next free slot of the three per-instance buffers, within bounds, and
increments the counter; at capacity it is the identity; clear resets the
counter; and a frame of n requests starting from a cleared counter
records exactly min n capacity circles. -/
theorem C8_fillCircle_capacity :
    (∀ (r : RendererWebGL) (c : V2) (rad : ℝ) (col : Color),
      r.WF → r.circlesCount < CIRCLE_BATCH_CAPACITY →
      (r.fillCircle c rad col).circlesCount = r.circlesCount + 1 ∧
      (r.fillCircle c rad col).WF ∧
      (r.fillCircle c rad col).circleCenterBufferData.get?
        (r.circlesCount * VEC2_COUNT + 0) = some c.x ∧
      (r.fillCircle c rad col).circleCenterBufferData.get?
        (r.circlesCount * VEC2_COUNT + 1) = some c.y ∧
      (r.fillCircle c rad col).circleRadiusBufferData.get? r.circlesCount = some rad ∧
      (r.fillCircle c rad col).circleColorBufferData.get?
        (r.circlesCount * RGBA_COUNT + 0) = some col.r ∧
      (r.fillCircle c rad col).circleColorBufferData.get?
        (r.circlesCount * RGBA_COUNT + 1) = some col.g ∧
      (r.fillCircle c rad col).circleColorBufferData.get?
        (r.circlesCount * RGBA_COUNT + 2) = some col.b ∧
      (r.fillCircle c rad col).circleColorBufferData.get?
        (r.circlesCount * RGBA_COUNT + 3) = some col.a) ∧
    (∀ (r : RendererWebGL) (c : V2) (rad : ℝ) (col : Color),
      CIRCLE_BATCH_CAPACITY ≤ r.circlesCount → r.fillCircle c rad col = r) ∧
    (∀ r : RendererWebGL, r.clear.circlesCount = 0) ∧
    (∀ (r : RendererWebGL) (reqs : List (V2 × ℝ × Color)), r.circlesCount = 0 →
      (r.fillMany reqs).circlesCount = min reqs.length CIRCLE_BATCH_CAPACITY) := by
  refine ⟨?_, ?_, fun r => rfl, ?_⟩
  · intro r c rad col hwf hlt
    obtain ⟨hlen1, hlen2, hlen3⟩ := hwf
    have hb0 : r.circlesCount * VEC2_COUNT + 0 < r.circleCenterBufferData.length := by
      rw [hlen1]; simp only [VEC2_COUNT, CIRCLE_BATCH_CAPACITY] at hlt ⊢; omega
    have hb1 : r.circlesCount * VEC2_COUNT + 1 < r.circleCenterBufferData.length := by
      rw [hlen1]; simp only [VEC2_COUNT, CIRCLE_BATCH_CAPACITY] at hlt ⊢; omega
    have hr0 : r.circlesCount < r.circleRadiusBufferData.length := by rw [hlen2]; exact hlt
    have hc0 : r.circlesCount * RGBA_COUNT + 0 < r.circleColorBufferData.length := by
      rw [hlen3]; simp only [RGBA_COUNT, CIRCLE_BATCH_CAPACITY] at hlt ⊢; omega
    have hc1 : r.circlesCount * RGBA_COUNT + 1 < r.circleColorBufferData.length := by
      rw [hlen3]; simp only [RGBA_COUNT, CIRCLE_BATCH_CAPACITY] at hlt ⊢; omega
    have hc2 : r.circlesCount * RGBA_COUNT + 2 < r.circleColorBufferData.length := by
      rw [hlen3]; simp only [RGBA_COUNT, CIRCLE_BATCH_CAPACITY] at hlt ⊢; omega
    have hc3 : r.circlesCount * RGBA_COUNT + 3 < r.circleColorBufferData.length := by
      rw [hlen3]; simp only [RGBA_COUNT, CIRCLE_BATCH_CAPACITY] at hlt ⊢; omega
    rw [RendererWebGL.fillCircle, if_pos hlt]
    refine ⟨rfl, ⟨?_, ?_, ?_⟩, ?_, ?_, ?_, ?_, ?_, ?_, ?_⟩
    · simp only [lset_length, hlen1]
    · simp only [lset_length, hlen2]
    · simp only [lset_length, hlen3]
    · rw [lset_get_ne _ _ _ _ (by omega), lset_get_self _ _ _ hb0]
    · rw [lset_get_self _ _ _ (by rw [lset_length]; exact hb1)]
    · rw [lset_get_self _ _ _ hr0]
    · rw [lset_get_ne _ _ _ _ (by omega), lset_get_ne _ _ _ _ (by omega),
        lset_get_ne _ _ _ _ (by omega), lset_get_self _ _ _ hc0]
    · rw [lset_get_ne _ _ _ _ (by omega), lset_get_ne _ _ _ _ (by omega),
        lset_get_self _ _ _ (by rw [lset_length]; exact hc1)]
    · rw [lset_get_ne _ _ _ _ (by omega),
        lset_get_self _ _ _ (by rw [lset_length, lset_length]; exact hc2)]
    · rw [lset_get_self _ _ _ (by rw [lset_length, lset_length, lset_length]; exact hc3)]
  · intro r c rad col h
    rw [RendererWebGL.fillCircle, if_neg (not_lt.mpr h)]
  · intro r reqs h
    rw [RendererWebGL.fillMany_count reqs r (by rw [h]; exact Nat.zero_le _), h, Nat.zero_add]

/-- Witness for C8 on the freshly constructed renderer. -/
theorem C8_fillCircle_capacity_witness :
    RendererWebGL.init.WF ∧ RendererWebGL.init.circlesCount < CIRCLE_BATCH_CAPACITY ∧
    (RendererWebGL.init.fillCircle ⟨1, 2⟩ 3 PLAYER_COLOR).circlesCount = 1 ∧
    RendererWebGL.init.clear.circlesCount = 0 ∧
    (RendererWebGL.init.fillMany
      (List.replicate 2000 ((⟨1, 2⟩, 3, PLAYER_COLOR) : V2 × ℝ × Color))).circlesCount
      = 1024 := by
  have hwf : RendererWebGL.init.WF :=
    ⟨List.length_replicate _ _, List.length_replicate _ _, List.length_replicate _ _⟩
  have hlt : RendererWebGL.init.circlesCount < CIRCLE_BATCH_CAPACITY := by
    show 0 < CIRCLE_BATCH_CAPACITY
    norm_num [CIRCLE_BATCH_CAPACITY]
  refine ⟨hwf, hlt, ?_, C8_fillCircle_capacity.2.2.1 RendererWebGL.init, ?_⟩
  · have h1 := (C8_fillCircle_capacity.1 RendererWebGL.init ⟨1, 2⟩ 3 PLAYER_COLOR hwf hlt).1
    rw [h1]
    rfl
  · have h2 := C8_fillCircle_capacity.2.2.2 RendererWebGL.init
      (List.replicate 2000 ((⟨1, 2⟩, 3, PLAYER_COLOR) : V2 × ℝ × Color)) rfl
    rw [h2]
    norm_num [CIRCLE_BATCH_CAPACITY]

/-!
Tutorial state machine.  Stages: 0 LearningMovement, 1 LearningShooting,
2 Finished.  The desktop message list is used (the touch variant differs
only in the strings).  The popup's onFadedOut callback swaps the text to
the current stage's message and fades back in; onFadedIn is unset.
-/

def TutorialMessages : List String :=
  ["WASD to move", "Left Mouse Click to shoot", ""]

structure TutorialPopup where
  alpha : ℝ
  dalpha : ℝ
  text : String

structure Tutorial where
  state : ℕ
  popup : TutorialPopup

/-- Tutorial constructor; stored is the persisted tutorial stage read
from storage (none when absent, defaulting to stage 0). -/
def Tutorial.init (stored : Option ℕ) : Tutorial :=
  ⟨stored.getD 0,
    ⟨0, TUTORIAL_POPUP_SPEED, (TutorialMessages.get? (stored.getD 0)).getD ""⟩⟩

def Tutorial.update (t : Tutorial) (dt : ℝ) : Tutorial :=
  let a := t.popup.alpha + t.popup.dalpha * dt
  if t.popup.dalpha < 0 ∧ a ≤ 0 then
    { t with popup := ⟨0, TUTORIAL_POPUP_SPEED, (TutorialMessages.get? t.state).getD ""⟩ }
  else if t.popup.dalpha > 0 ∧ a ≥ 1 then
    { t with popup := ⟨1, 0, t.popup.text⟩ }
  else
    { t with popup := { t.popup with alpha := a } }

def Tutorial.playerMoved (t : Tutorial) : Tutorial :=
  if t.state = 0 then
    { state := t.state + 1, popup := { t.popup with dalpha := -TUTORIAL_POPUP_SPEED } }
  else t

def Tutorial.playerShot (t : Tutorial) : Tutorial :=
  if t.state = 1 then
    { state := t.state + 1, popup := { t.popup with dalpha := -TUTORIAL_POPUP_SPEED } }
  else t

/-! Player. -/

structure Player where
  pos : V2
  health : ℝ
  target : V2
  shootCooldown : ℝ
  lastShoot : ℝ
  trail : Trail
  accuracy : ℕ
  shootCount : ℤ
  shooting : Bool

/-- Player constructor; shooting starts undefined, modelled as false. -/
def Player.init (stored : Option ℕ) (pos : V2) : Player :=
  ⟨pos, PLAYER_MAX_HEALTH, ⟨0, 0⟩, PLAYER_SHOOT_COOLDOWN, 0,
    ⟨[], 0, false, PLAYER_RADIUS, PLAYER_COLOR, PLAYER_TRAIL_RATE⟩,
    0, if stored = some 2 then 0 else -1, false⟩

def Player.update (p : Player) (dt : ℝ) (vel : V2) : Player :=
  { p with pos := p.pos.add (vel.scale dt), trail := (p.trail.push p.pos).update dt }

def Player.shoot (p : Player) : Player × Bullet :=
  let bulletDir := (p.target.sub p.pos).normalize
  ({ p with shootCount := p.shootCount + 1 },
    ⟨p.pos.add (bulletDir.scale (PLAYER_RADIUS + BULLET_RADIUS)),
      bulletDir.scale BULLET_SPEED, BULLET_LIFETIME⟩)

def Player.damage (p : Player) (value : ℝ) : Player :=
  { p with health := max (p.health - value) 0 }

def Player.heal (p : Player) (value : ℝ) : Player :=
  if 0 < p.health then { p with health := min (p.health + value) PLAYER_MAX_HEALTH }
  else p

/-!
Renderer state as seen by the orchestrator: both backends expose the
camera pair, the later-generation 2D backend also carries grayness, the
viewport scale and the canvas size (used by screenToWorld).
-/

structure RendererState where
  cameraPos : V2
  cameraVel : V2
  grayness : ℝ
  unitsPerPixel : ℝ
  canvasWidth : ℝ
  canvasHeight : ℝ

def RendererState.setTarget (r : RendererState) (target : V2) : RendererState :=
  { r with cameraVel := target.sub r.cameraPos }

def RendererState.update (r : RendererState) (dt : ℝ) : RendererState :=
  { r with cameraPos := r.cameraPos.add (r.cameraVel.scale dt) }

def RendererState.screenToWorld (r : RendererState) (point : V2) : V2 :=
  ((point.sub ⟨r.canvasWidth / 2, r.canvasHeight / 2⟩).scale r.unitsPerPixel).add
    r.cameraPos

def directionMap (key : String) : Option V2 :=
  if key = "KeyS" then some ⟨0, 1⟩
  else if key = "KeyW" then some ⟨0, -1⟩
  else if key = "KeyA" then some ⟨-1, 0⟩
  else if key = "KeyD" then some ⟨1, 0⟩
  else none

/-! Game orchestrator. -/

structure GameState where
  player : Player
  score : ℕ
  mousePos : V2
  movingTouchId : Option ℕ
  movingTouchStart : V2
  movingTouchDirection : V2
  shootingTouchId : Option ℕ
  shootingTouchStart : V2
  shootingTouchDirection : V2
  pressedKeys : List String
  tutorial : Tutorial
  bullets : List Bullet
  enemies : List Enemy
  particles : List Particle
  enemySpawnRate : ℝ
  enemySpawnCooldown : ℝ
  paused : Bool
  renderer : RendererState
  camera : Option RendererState

def Game.restart (stored : Option ℕ) (s : GameState) : GameState :=
  { player := Player.init stored ⟨0, 0⟩,
    score := 0,
    mousePos := ⟨0, 0⟩,
    movingTouchId := none,
    movingTouchStart := ⟨0, 0⟩,
    movingTouchDirection := ⟨0, 0⟩,
    shootingTouchId := none,
    shootingTouchStart := ⟨0, 0⟩,
    shootingTouchDirection := ⟨0, 0⟩,
    pressedKeys := [],
    tutorial := Tutorial.init stored,
    bullets := [],
    enemies := [],
    particles := [],
    enemySpawnRate := ENEMY_SPAWN_COOLDOWN,
    enemySpawnCooldown := ENEMY_SPAWN_COOLDOWN,
    paused := false,
    renderer := { s.renderer with cameraPos := ⟨0, 0⟩, cameraVel := ⟨0, 0⟩ },
    camera := s.camera }

/-- Game constructor: stores the renderer, then calls restart.  The field
named camera is never assigned anywhere in the class, so it starts (and
stays) undefined. -/
def Game.new (stored : Option ℕ) (renderer : RendererState) : GameState :=
  Game.restart stored
    { player := Player.init stored ⟨0, 0⟩,
      score := 0,
      mousePos := ⟨0, 0⟩,
      movingTouchId := none,
      movingTouchStart := ⟨0, 0⟩,
      movingTouchDirection := ⟨0, 0⟩,
      shootingTouchId := none,
      shootingTouchStart := ⟨0, 0⟩,
      shootingTouchDirection := ⟨0, 0⟩,
      pressedKeys := [],
      tutorial := Tutorial.init stored,
      bullets := [],
      enemies := [],
      particles := [],
      enemySpawnRate := ENEMY_SPAWN_COOLDOWN,
      enemySpawnCooldown := ENEMY_SPAWN_COOLDOWN,
      paused := false,
      renderer := renderer,
      camera := none }

/-- The held-key scan: accumulated direction and the moved flag. -/
def movementScan (keys : List String) : V2 × Bool :=
  keys.foldl
    (fun acc key =>
      match directionMap key with
      | some d => (acc.1.add d, true)
      | none => acc)
    (⟨0, 0⟩, false)

def lmodify {α : Type} (f : α → α) : ℕ → List α → List α
  | _, [] => []
  | 0, x :: xs => f x :: xs
  | n + 1, x :: xs => x :: lmodify f n xs

/-- Body of the bullet-hit branch of the collision scan, for the pair of
enemy index ei and bullet index bi: when the center distance is at most
the radius sum, award the kill score, heal the player, count the hit,
zero the bullet lifetime in place, mark the enemy dead and spawn a
particle burst at the enemy position. -/
def Game.hitPair (tape : ℕ → ℝ) (s : GameState) (k : ℕ) (ei bi : ℕ) : GameState × ℕ :=
  match s.enemies.get? ei, s.bullets.get? bi with
  | some e, some b =>
    if e.pos.dist b.pos ≤ BULLET_RADIUS + ENEMY_RADIUS then
      let pk := particleBurst tape k s.particles e.pos ENEMY_COLOR
      ({ s with
          score := s.score + ENEMY_KILL_SCORE,
          player := { s.player.heal ENEMY_KILL_HEAL with accuracy := s.player.accuracy + 1 },
          bullets := lset s.bullets bi { b with lifetime := 0 },
          enemies := lset s.enemies ei { e with ded := true },
          particles := pk.1 }, pk.2)
    else (s, k)
  | _, _ => (s, k)

/-- The inner bullet loop for one enemy (guarded by the enemy not being
dead at loop entry in enemyScanStep). -/
def Game.enemyBulletScan (tape : ℕ → ℝ) (s : GameState) (k : ℕ) (ei : ℕ) : GameState × ℕ :=
  (List.range s.bullets.length).foldl (fun sk bi => Game.hitPair tape sk.1 sk.2 ei bi) (s, k)

/-- The player-overlap branch for one enemy: if the player is alive and
the enemy is not dead and overlaps the player, damage the player, on
death disable the player's and every enemy's trail, mark the enemy dead
and burst in the player's colour. -/
def Game.playerOverlap (tape : ℕ → ℝ) (s : GameState) (k : ℕ) (ei : ℕ) : GameState × ℕ :=
  match s.enemies.get? ei with
  | some e =>
    if 0 < s.player.health ∧ e.ded = false then
      if e.pos.dist s.player.pos ≤ PLAYER_RADIUS + ENEMY_RADIUS then
        let p1 := s.player.damage ENEMY_DAMAGE
        let pe :=
          if p1.health ≤ 0 then
            ({ p1 with trail := { p1.trail with disabled := true } },
              s.enemies.map fun en => { en with trail := { en.trail with disabled := true } })
          else (p1, s.enemies)
        let pk := particleBurst tape k s.particles e.pos PLAYER_COLOR
        ({ s with
            player := pe.1,
            enemies := lmodify (fun en => { en with ded := true }) ei pe.2,
            particles := pk.1 }, pk.2)
      else (s, k)
    else (s, k)
  | none => (s, k)

/-- Per-enemy body of the collision scan: the bullet loop runs only when
the enemy is not yet dead; the player-overlap branch always follows (and
re-reads the dead flag itself). -/
def Game.enemyScanStep (tape : ℕ → ℝ) (sk : GameState × ℕ) (ei : ℕ) : GameState × ℕ :=
  match sk.1.enemies.get? ei with
  | some e =>
    if e.ded = false then
      let ab := Game.enemyBulletScan tape sk.1 sk.2 ei
      Game.playerOverlap tape ab.1 ab.2 ei
    else Game.playerOverlap tape sk.1 sk.2 ei
  | none => Game.playerOverlap tape sk.1 sk.2 ei

def Game.collisionPass (tape : ℕ → ℝ) (s : GameState) (k : ℕ) : GameState × ℕ :=
  (List.range s.enemies.length).foldl (Game.enemyScanStep tape) (s, k)

def Game.spawnEnemy (tape : ℕ → ℝ) (s : GameState) (k : ℕ) : GameState × ℕ :=
  let dir := tape k * (2 * Real.pi)
  ({ s with enemies := s.enemies ++
      [Enemy.spawn (s.player.pos.add (V2.polar ENEMY_SPAWN_DISTANCE dir))] }, k + 1)

/-- The spawn scheduler at the end of Game.update: gated on the tutorial
being finished; counts the cooldown down by dt; on expiry spawns one
enemy, resets the timer to the current interval and only then divides the
interval by the growth factor. -/
def Game.spawnScheduler (tape : ℕ → ℝ) (s : GameState) (dt : ℝ) (k : ℕ) : GameState × ℕ :=
  if s.tutorial.state = 2 then
    let cd := s.enemySpawnCooldown - dt
    if cd ≤ 0 then
      let sk := Game.spawnEnemy tape { s with enemySpawnCooldown := cd } k
      ({ sk.1 with
          enemySpawnCooldown := sk.1.enemySpawnRate,
          enemySpawnRate := sk.1.enemySpawnRate / ENEMY_SPAWN_GROWTH }, sk.2)
    else ({ s with enemySpawnCooldown := cd }, k)
  else (s, k)

/-- The shooting block of Game.update: gated on the shooting flag and on
the wall clock (performance.now), not on a dt countdown.  On firing it
stamps lastShoot with the wall-clock reading, advances the tutorial and
appends the new bullet. -/
def Game.shootStep (p : Player) (bullets : List Bullet) (tut : Tutorial) (now : ℝ) :
    Player × List Bullet × Tutorial :=
  if p.shooting = true ∧ now - p.lastShoot > p.shootCooldown then
    let ps := Player.shoot { p with lastShoot := now }
    (ps.1, bullets ++ [ps.2], tut.playerShot)
  else (p, bullets, tut)

/-- Game.update: pause gate, grayness, death slow-motion, camera, input
velocity, player movement, wall-clock-gated shooting, tutorial popup,
collision scan, lifetime pruning, spawn scheduling. -/
def Game.update (tape : ℕ → ℝ) (s : GameState) (dt now : ℝ) (k : ℕ) : GameState × ℕ :=
  if s.paused then
    ({ s with renderer := { s.renderer with grayness := 1 } }, k)
  else
    let s0 := { s with renderer :=
      { s.renderer with grayness := 1 - s.player.health / PLAYER_MAX_HEALTH } }
    let dt1 := if s0.player.health ≤ 0 then dt / 50 else dt
    let r1 := (s0.renderer.setTarget s0.player.pos).update dt1
    let mv := movementScan s0.pressedKeys
    let vel := ((mv.1.add s0.movingTouchDirection).normalize).scale PLAYER_SPEED
    let tut1 := if mv.2 then s0.tutorial.playerMoved else s0.tutorial
    let p1 := s0.player.update dt1 vel
    let pbt := Game.shootStep p1 s0.bullets tut1 now
    let tut2 := pbt.2.2.update dt1
    let mid := { s0 with renderer := r1, player := pbt.1, bullets := pbt.2.1, tutorial := tut2 }
    let ck := Game.collisionPass tape mid k
    let s2 := { ck.1 with
      bullets := (ck.1.bullets.map fun b => b.update dt1).filter
        fun b => decide (0 < b.lifetime),
      particles := (ck.1.particles.map fun p => p.update dt1).filter
        fun p => decide (0 < p.lifetime),
      enemies := (ck.1.enemies.map fun e => e.update dt1 ck.1.player.pos).filter
        fun e => decide (e.ded = false ∧ e.pos.dist ck.1.player.pos < ENEMY_DESPAWN_DISTANCE) }
    Game.spawnScheduler tape s2 dt1 ck.2

/-- Game.mouseMove: when unpaused and shooting, the aim update reads the
never-assigned field named camera; accessing screenToWorld on undefined
raises a TypeError, modelled as an error result. -/
def Game.mouseMove (s : GameState) (offset : V2) : Except String GameState :=
  if s.paused = false ∧ s.player.shooting = true then
    match s.camera with
    | none => .error "TypeError: cannot read screenToWorld of undefined"
    | some cam =>
      .ok { s with player := { s.player with target := cam.screenToWorld offset } }
  else .ok s

/-- Iterated simulation: one update per frame, each frame carrying its dt
and its wall-clock reading, threading the random-tape cursor. -/
def Game.run (tape : ℕ → ℝ) : List (ℝ × ℝ) → GameState × ℕ → GameState × ℕ
  | [], sk => sk
  | f :: rest, sk => Game.run tape rest (Game.update tape sk.1 f.1 f.2 sk.2)

/-- Interval the spawn timer is reset to at the Nth spawn (n = N - 1
divisions have happened before it, since the rate is divided only after
the reset). -/
def spawnRateAfter (I : ℝ) : ℕ → ℝ
  | 0 => I
  | n + 1 => spawnRateAfter I n / ENEMY_SPAWN_GROWTH

theorem spawnRateAfter_eq (I : ℝ) (n : ℕ) :
    spawnRateAfter I n = I / ENEMY_SPAWN_GROWTH ^ n := by
  induction n with
  | zero => simp [spawnRateAfter]
  | succ m ih => rw [spawnRateAfter, ih, div_div, pow_succ]

theorem spawnRateAfter_nonneg (I : ℝ) (hI : 0 ≤ I) (n : ℕ) :
    0 ≤ spawnRateAfter I n := by
  rw [spawnRateAfter_eq]
  exact div_nonneg hI (pow_nonneg (by norm_num [ENEMY_SPAWN_GROWTH]) n)

/-- C9: when the game is paused, Game.update changes only the renderer's
grayness (setting it to 1): player, enemies, bullets, particles (and so
all trails), tutorial, score, spawn timers, camera state and the random
cursor are untouched. -/
theorem C9_paused_freezes (tape : ℕ → ℝ) (s : GameState) (dt now : ℝ) (k : ℕ)
    (h : s.paused = true) :
    (Game.update tape s dt now k).1.player = s.player ∧
    (Game.update tape s dt now k).1.enemies = s.enemies ∧
    (Game.update tape s dt now k).1.bullets = s.bullets ∧
    (Game.update tape s dt now k).1.particles = s.particles ∧
    (Game.update tape s dt now k).1.tutorial = s.tutorial ∧
    (Game.update tape s dt now k).1.score = s.score ∧
    (Game.update tape s dt now k).1.enemySpawnRate = s.enemySpawnRate ∧
    (Game.update tape s dt now k).1.enemySpawnCooldown = s.enemySpawnCooldown ∧
    (Game.update tape s dt now k).1.renderer.cameraPos = s.renderer.cameraPos ∧
    (Game.update tape s dt now k).1.renderer.cameraVel = s.renderer.cameraVel ∧
    (Game.update tape s dt now k).1.renderer.grayness = 1 ∧
    Game.update tape s dt now k =
      ({ s with renderer := { s.renderer with grayness := 1 } }, k) := by
  have heq : Game.update tape s dt now k =
      ({ s with renderer := { s.renderer with grayness := 1 } }, k) := by
    rw [Game.update, if_pos h]
  rw [heq]
  refine ⟨rfl, rfl, rfl, rfl, rfl, rfl, rfl, rfl, rfl, rfl, rfl, rfl⟩

/-- Witness for C9 at a concrete paused state. -/
theorem C9_paused_freezes_witness :
    ({ Game.new none ⟨⟨0, 0⟩, ⟨0, 0⟩, 0, 1, 100, 100⟩ with paused := true }
      : GameState).paused = true ∧
    (Game.update (fun _ => 0)
      { Game.new none ⟨⟨0, 0⟩, ⟨0, 0⟩, 0, 1, 100, 100⟩ with paused := true } 1 0 0).1.score
      = ({ Game.new none ⟨⟨0, 0⟩, ⟨0, 0⟩, 0, 1, 100, 100⟩ with paused := true }
        : GameState).score :=
  ⟨rfl, (C9_paused_freezes (fun _ => 0)
    { Game.new none ⟨⟨0, 0⟩, ⟨0, 0⟩, 0, 1, 100, 100⟩ with paused := true }
    1 0 0 rfl).2.2.2.2.2.1⟩

/-- C2: at a spawn the timer is reset to the current interval and the
interval is then divided by the growth factor; the interval set at the
Nth spawn equals the initial interval divided by growth^(N-1), and the
interval sequence is monotonically decreasing and never negative. -/
theorem C2_spawn_acceleration :
    (∀ (tape : ℕ → ℝ) (s : GameState) (dt : ℝ) (k : ℕ),
      s.tutorial.state = 2 → s.enemySpawnCooldown - dt ≤ 0 →
      (Game.spawnScheduler tape s dt k).1.enemySpawnCooldown = s.enemySpawnRate ∧
      (Game.spawnScheduler tape s dt k).1.enemySpawnRate
        = s.enemySpawnRate / ENEMY_SPAWN_GROWTH) ∧
    (∀ (I : ℝ) (N : ℕ), 1 ≤ N →
      spawnRateAfter I (N - 1) = I / ENEMY_SPAWN_GROWTH ^ (N - 1)) ∧
    (∀ I : ℝ, 0 ≤ I → Antitone (spawnRateAfter I)) ∧
    (∀ (I : ℝ) (n : ℕ), 0 ≤ I → 0 ≤ spawnRateAfter I n) := by
  refine ⟨?_, ?_, ?_, ?_⟩
  · intro tape s dt k h1 h2
    rw [Game.spawnScheduler, if_pos h1]
    rw [if_pos h2]
    exact ⟨rfl, rfl⟩
  · intro I N _
    exact spawnRateAfter_eq I (N - 1)
  · intro I hI
    apply antitone_nat_of_succ_le
    intro n
    rw [spawnRateAfter]
    exact div_le_self (spawnRateAfter_nonneg I hI n) (by norm_num [ENEMY_SPAWN_GROWTH])
  · intro I n hI
    exact spawnRateAfter_nonneg I hI n

/-- Witness for C2 at a concrete due scheduler state and the code's
actual initial interval and growth factor. -/
theorem C2_spawn_acceleration_witness :
    ((Game.new (some 2) ⟨⟨0, 0⟩, ⟨0, 0⟩, 0, 1, 100, 100⟩).tutorial.state = 2 ∧
      (Game.new (some 2) ⟨⟨0, 0⟩, ⟨0, 0⟩, 0, 1, 100, 100⟩).enemySpawnCooldown - 2 ≤ 0 ∧
      (Game.spawnScheduler (fun _ => 0)
        (Game.new (some 2) ⟨⟨0, 0⟩, ⟨0, 0⟩, 0, 1, 100, 100⟩) 2 0).1.enemySpawnCooldown
        = (Game.new (some 2) ⟨⟨0, 0⟩, ⟨0, 0⟩, 0, 1, 100, 100⟩).enemySpawnRate) ∧
    ((1 : ℕ) ≤ 3 ∧ spawnRateAfter ENEMY_SPAWN_COOLDOWN (3 - 1)
      = ENEMY_SPAWN_COOLDOWN / ENEMY_SPAWN_GROWTH ^ (3 - 1)) ∧
    ((0 : ℝ) ≤ ENEMY_SPAWN_COOLDOWN ∧
      spawnRateAfter ENEMY_SPAWN_COOLDOWN 1 ≤ spawnRateAfter ENEMY_SPAWN_COOLDOWN 0 ∧
      0 ≤ spawnRateAfter ENEMY_SPAWN_COOLDOWN 5) := by
  have hI : (0 : ℝ) ≤ ENEMY_SPAWN_COOLDOWN := by norm_num [ENEMY_SPAWN_COOLDOWN]
  have hcd : (Game.new (some 2) ⟨⟨0, 0⟩, ⟨0, 0⟩, 0, 1, 100, 100⟩).enemySpawnCooldown - 2 ≤ 0 := by
    show ENEMY_SPAWN_COOLDOWN - 2 ≤ 0
    norm_num [ENEMY_SPAWN_COOLDOWN]
  refine ⟨⟨rfl, hcd, ?_⟩, ⟨by norm_num, C2_spawn_acceleration.2.1 ENEMY_SPAWN_COOLDOWN 3
    (by norm_num)⟩, hI, ?_, C2_spawn_acceleration.2.2.2 ENEMY_SPAWN_COOLDOWN 5 hI⟩
  · exact (C2_spawn_acceleration.1 (fun _ => 0)
      (Game.new (some 2) ⟨⟨0, 0⟩, ⟨0, 0⟩, 0, 1, 100, 100⟩) 2 0 rfl hcd).1
  · exact C2_spawn_acceleration.2.2.1 ENEMY_SPAWN_COOLDOWN hI (Nat.le_succ 0)

theorem V2.dist_self (v : V2) : v.dist v = 0 := by
  rw [V2.dist, V2.sub, V2.len]
  simp

/-- A post-death state: the player is at zero health while a live enemy
and a bullet overlap at the origin. -/
def deadPlayerOverlapState : GameState :=
  { Game.new (some 2) ⟨⟨0, 0⟩, ⟨0, 0⟩, 0, 1, 100, 100⟩ with
    player := { Player.init (some 2) ⟨0, 0⟩ with health := 0 },
    enemies := [Enemy.spawn ⟨0, 0⟩],
    bullets := [⟨⟨0, 0⟩, ⟨0, 0⟩, BULLET_LIFETIME⟩] }

/-- An alive-player state with a live enemy and a bullet overlapping at
the origin. -/
def healthyOverlapState : GameState :=
  { Game.new (some 2) ⟨⟨0, 0⟩, ⟨0, 0⟩, 0, 1, 100, 100⟩ with
    enemies := [Enemy.spawn ⟨0, 0⟩],
    bullets := [⟨⟨0, 0⟩, ⟨0, 0⟩, BULLET_LIFETIME⟩] }

/-- Counterexample to C1: with the player at zero health, a zero-distance
enemy-bullet pair still scores, but Player.heal is a no-op below one
health, so the player does NOT heal by the kill-heal amount clamped to
max health (which would give 10): health stays 0. -/
theorem C1_counterexample :
    (Enemy.spawn ⟨0, 0⟩).ded = false ∧
    (Enemy.spawn ⟨0, 0⟩).pos.dist (⟨⟨0, 0⟩, ⟨0, 0⟩, BULLET_LIFETIME⟩ : Bullet).pos
      ≤ BULLET_RADIUS + ENEMY_RADIUS ∧
    min (deadPlayerOverlapState.player.health + ENEMY_KILL_HEAL) PLAYER_MAX_HEALTH = 10 ∧
    (Game.hitPair (fun _ => 0) deadPlayerOverlapState 0 0 0).1.player.health = 0 ∧
    (Game.hitPair (fun _ => 0) deadPlayerOverlapState 0 0 0).1.score
      = deadPlayerOverlapState.score + ENEMY_KILL_SCORE ∧
    (0 : ℝ) ≠ 10 := by
  have hd : (Enemy.spawn ⟨0, 0⟩).pos.dist (⟨⟨0, 0⟩, ⟨0, 0⟩, BULLET_LIFETIME⟩ : Bullet).pos
      ≤ BULLET_RADIUS + ENEMY_RADIUS := by
    show (⟨0, 0⟩ : V2).dist ⟨0, 0⟩ ≤ BULLET_RADIUS + ENEMY_RADIUS
    rw [V2.dist_self]
    norm_num [BULLET_RADIUS, ENEMY_RADIUS, PLAYER_RADIUS]
  have hstep : Game.hitPair (fun _ => 0) deadPlayerOverlapState 0 0 0 =
      ({ deadPlayerOverlapState with
          score := deadPlayerOverlapState.score + ENEMY_KILL_SCORE,
          player := { deadPlayerOverlapState.player.heal ENEMY_KILL_HEAL with
            accuracy := deadPlayerOverlapState.player.accuracy + 1 },
          bullets := lset deadPlayerOverlapState.bullets 0
            { (⟨⟨0, 0⟩, ⟨0, 0⟩, BULLET_LIFETIME⟩ : Bullet) with lifetime := 0 },
          enemies := lset deadPlayerOverlapState.enemies 0
            { Enemy.spawn ⟨0, 0⟩ with ded := true },
          particles := (particleBurst (fun _ => 0) 0 deadPlayerOverlapState.particles
            (Enemy.spawn ⟨0, 0⟩).pos ENEMY_COLOR).1 },
        (particleBurst (fun _ => 0) 0 deadPlayerOverlapState.particles
          (Enemy.spawn ⟨0, 0⟩).pos ENEMY_COLOR).2) := by
    rw [Game.hitPair]
    show (if (Enemy.spawn ⟨0, 0⟩).pos.dist (⟨⟨0, 0⟩, ⟨0, 0⟩, BULLET_LIFETIME⟩ : Bullet).pos
        ≤ BULLET_RADIUS + ENEMY_RADIUS then _ else _) = _
    rw [if_pos hd]
  refine ⟨rfl, hd, ?_, ?_, ?_, by norm_num⟩
  · show min ((0 : ℝ) + ENEMY_KILL_HEAL) PLAYER_MAX_HEALTH = 10
    norm_num [ENEMY_KILL_HEAL, PLAYER_MAX_HEALTH]
  · rw [hstep]
    show (deadPlayerOverlapState.player.heal ENEMY_KILL_HEAL).health = 0
    have hh : deadPlayerOverlapState.player.health = 0 := rfl
    rw [Player.heal, hh, if_neg (lt_irrefl (0 : ℝ))]
    exact hh
  · rw [hstep]

/-- C1 amended: for an enemy not marked dead and any bullet within the
radius sum of its center (in particular at distance zero), the scan body
marks the enemy dead, zeroes the bullet's lifetime in place (the list
keeps its length; removal happens at the pruning step), awards the fixed
kill score, increments the hit counter, spawns a particle burst at the
enemy's position in the enemy colour, and, provided the player is alive,
heals the player by the fixed heal amount clamped to max health (a dead
player is not healed). -/
theorem C1_bullet_hit (tape : ℕ → ℝ) (s : GameState) (k ei bi : ℕ)
    (e : Enemy) (b : Bullet)
    (he : s.enemies.get? ei = some e) (hb : s.bullets.get? bi = some b)
    (_hded : e.ded = false)
    (hdist : e.pos.dist b.pos ≤ BULLET_RADIUS + ENEMY_RADIUS)
    (halive : 0 < s.player.health) :
    (Game.hitPair tape s k ei bi).1.enemies.get? ei = some { e with ded := true } ∧
    (Game.hitPair tape s k ei bi).1.bullets.get? bi = some { b with lifetime := 0 } ∧
    (Game.hitPair tape s k ei bi).1.bullets.length = s.bullets.length ∧
    (Game.hitPair tape s k ei bi).1.enemies.length = s.enemies.length ∧
    (Game.hitPair tape s k ei bi).1.score = s.score + ENEMY_KILL_SCORE ∧
    (Game.hitPair tape s k ei bi).1.player.health
      = min (s.player.health + ENEMY_KILL_HEAL) PLAYER_MAX_HEALTH ∧
    (Game.hitPair tape s k ei bi).1.player.accuracy = s.player.accuracy + 1 ∧
    ∃ burst : List Particle,
      (Game.hitPair tape s k ei bi).1.particles = s.particles ++ burst ∧
      ∀ p ∈ burst, p.pos = e.pos ∧ p.color = ENEMY_COLOR := by
  obtain ⟨hei, -⟩ := List.get?_eq_some.mp he
  obtain ⟨hbi, -⟩ := List.get?_eq_some.mp hb
  have hstep : Game.hitPair tape s k ei bi =
      ({ s with
          score := s.score + ENEMY_KILL_SCORE,
          player := { s.player.heal ENEMY_KILL_HEAL with
            accuracy := s.player.accuracy + 1 },
          bullets := lset s.bullets bi { b with lifetime := 0 },
          enemies := lset s.enemies ei { e with ded := true },
          particles := (particleBurst tape k s.particles e.pos ENEMY_COLOR).1 },
        (particleBurst tape k s.particles e.pos ENEMY_COLOR).2) := by
    rw [Game.hitPair, he, hb]
    dsimp only
    rw [if_pos hdist]
  rw [hstep]
  refine ⟨lset_get_self _ _ _ hei, lset_get_self _ _ _ hbi,
    lset_length _ _ _, lset_length _ _ _, rfl, ?_, rfl, ?_⟩
  · show (s.player.heal ENEMY_KILL_HEAL).health = _
    rw [Player.heal, if_pos halive]
  · refine ⟨_, rfl, ?_⟩
    intro p hp
    rcases List.mem_map.mp hp with ⟨i, -, rfl⟩
    exact ⟨rfl, rfl⟩

/-- Witness for C1 at a concrete alive-player state with a zero-distance
pair. -/
theorem C1_bullet_hit_witness :
    healthyOverlapState.enemies.get? 0 = some (Enemy.spawn ⟨0, 0⟩) ∧
    (Enemy.spawn ⟨0, 0⟩).ded = false ∧
    (Enemy.spawn ⟨0, 0⟩).pos.dist (⟨⟨0, 0⟩, ⟨0, 0⟩, BULLET_LIFETIME⟩ : Bullet).pos
      ≤ BULLET_RADIUS + ENEMY_RADIUS ∧
    0 < healthyOverlapState.player.health ∧
    (Game.hitPair (fun _ => 0) healthyOverlapState 0 0 0).1.score
      = healthyOverlapState.score + ENEMY_KILL_SCORE ∧
    (Game.hitPair (fun _ => 0) healthyOverlapState 0 0 0).1.player.health
      = min (healthyOverlapState.player.health + ENEMY_KILL_HEAL) PLAYER_MAX_HEALTH := by
  have hd : (Enemy.spawn ⟨0, 0⟩).pos.dist (⟨⟨0, 0⟩, ⟨0, 0⟩, BULLET_LIFETIME⟩ : Bullet).pos
      ≤ BULLET_RADIUS + ENEMY_RADIUS := by
    show (⟨0, 0⟩ : V2).dist ⟨0, 0⟩ ≤ BULLET_RADIUS + ENEMY_RADIUS
    rw [V2.dist_self]
    norm_num [BULLET_RADIUS, ENEMY_RADIUS, PLAYER_RADIUS]
  have halive : 0 < healthyOverlapState.player.health := by
    show (0 : ℝ) < PLAYER_MAX_HEALTH
    norm_num [PLAYER_MAX_HEALTH]
  have h := C1_bullet_hit (fun _ => 0) healthyOverlapState 0 0 0 (Enemy.spawn ⟨0, 0⟩)
    ⟨⟨0, 0⟩, ⟨0, 0⟩, BULLET_LIFETIME⟩ rfl rfl rfl hd halive
  exact ⟨rfl, rfl, hd, halive, h.2.2.2.2.1, h.2.2.2.2.2.1⟩

/-! Frame lemmas: no step of the simulation ever assigns the camera field. -/

theorem foldl_preserP {β : Type} (P : GameState → β)
    (f : GameState × ℕ → ℕ → GameState × ℕ)
    (hf : ∀ sk i, P (f sk i).1 = P sk.1) :
    ∀ (l : List ℕ) (sk : GameState × ℕ), P ((l.foldl f sk).1) = P sk.1 := by
  intro l
  induction l with
  | nil => intro sk; rfl
  | cons x xs ih =>
    intro sk
    rw [List.foldl_cons, ih, hf]

theorem Game.hitPair_camera (tape : ℕ → ℝ) (s : GameState) (k ei bi : ℕ) :
    (Game.hitPair tape s k ei bi).1.camera = s.camera := by
  rw [Game.hitPair]
  rcases s.enemies.get? ei with _ | e
  · rfl
  · rcases s.bullets.get? bi with _ | b
    · rfl
    · dsimp only
      split
      · rfl
      · rfl

theorem Game.enemyBulletScan_camera (tape : ℕ → ℝ) (s : GameState) (k ei : ℕ) :
    (Game.enemyBulletScan tape s k ei).1.camera = s.camera :=
  foldl_preserP (fun g => g.camera) _
    (fun sk bi => Game.hitPair_camera tape sk.1 sk.2 ei bi) _ (s, k)

theorem Game.playerOverlap_camera (tape : ℕ → ℝ) (s : GameState) (k ei : ℕ) :
    (Game.playerOverlap tape s k ei).1.camera = s.camera := by
  rw [Game.playerOverlap]
  rcases s.enemies.get? ei with _ | e
  · rfl
  · dsimp only
    split
    · split
      · rfl
      · rfl
    · rfl

theorem Game.enemyScanStep_camera (tape : ℕ → ℝ) (sk : GameState × ℕ) (ei : ℕ) :
    (Game.enemyScanStep tape sk ei).1.camera = sk.1.camera := by
  rw [Game.enemyScanStep]
  rcases sk.1.enemies.get? ei with _ | e
  · exact Game.playerOverlap_camera _ _ _ _
  · dsimp only
    split
    · exact (Game.playerOverlap_camera _ _ _ _).trans
        (Game.enemyBulletScan_camera _ _ _ _)
    · exact Game.playerOverlap_camera _ _ _ _

theorem Game.collisionPass_camera (tape : ℕ → ℝ) (s : GameState) (k : ℕ) :
    (Game.collisionPass tape s k).1.camera = s.camera :=
  foldl_preserP (fun g => g.camera) _
    (fun sk ei => Game.enemyScanStep_camera tape sk ei) _ (s, k)

theorem Game.spawnScheduler_camera (tape : ℕ → ℝ) (s : GameState) (dt : ℝ) (k : ℕ) :
    (Game.spawnScheduler tape s dt k).1.camera = s.camera := by
  rw [Game.spawnScheduler]
  split
  · dsimp only
    split
    · rfl
    · rfl
  · rfl

theorem Game.update_camera (tape : ℕ → ℝ) (s : GameState) (dt now : ℝ) (k : ℕ) :
    (Game.update tape s dt now k).1.camera = s.camera := by
  rw [Game.update]
  split
  · rfl
  · exact (Game.spawnScheduler_camera _ _ _ _).trans (Game.collisionPass_camera _ _ _)

/-- C10: the constructor leaves camera undefined, restart and update
never assign it, and whenever the game is unpaused and the player is
shooting, Game.mouseMove faults on the undefined camera instead of
updating the player's aim target. -/
theorem C10_mouseMove_faults :
    (∀ (stored : Option ℕ) (r : RendererState), (Game.new stored r).camera = none) ∧
    (∀ (stored : Option ℕ) (s : GameState), (Game.restart stored s).camera = s.camera) ∧
    (∀ (tape : ℕ → ℝ) (s : GameState) (dt now : ℝ) (k : ℕ),
      (Game.update tape s dt now k).1.camera = s.camera) ∧
    (∀ (s : GameState) (p : V2), s.paused = false → s.player.shooting = true →
      s.camera = none →
      Game.mouseMove s p =
        .error "TypeError: cannot read screenToWorld of undefined") := by
  refine ⟨fun stored r => rfl, fun stored s => rfl, Game.update_camera, ?_⟩
  intro s p hp hs hc
  rw [Game.mouseMove, if_pos ⟨hp, hs⟩, hc]

/-- A state ready to shoot: alive player with the shooting flag raised,
no enemies or bullets, a quiet trail and a far-from-due spawn timer. -/
def shootReadyState : GameState :=
  { Game.new (some 2) ⟨⟨0, 0⟩, ⟨0, 0⟩, 0, 1, 100, 100⟩ with
    player := { Player.init (some 2) ⟨0, 0⟩ with
      shooting := true,
      trail := { (Player.init (some 2) ⟨0, 0⟩).trail with cooldown := 1 } },
    enemySpawnCooldown := 5 }

theorem Game.shootStep_noshoot (p : Player) (b : List Bullet) (t : Tutorial) (now : ℝ)
    (h : p.shooting = false) : Game.shootStep p b t now = (p, b, t) := by
  rw [Game.shootStep, if_neg]
  intro hc
  rw [h] at hc
  exact Bool.false_ne_true hc.1

/-- Counterexample to C3: two runs of Game.update from the same state,
with the same dt, the same inputs and the same random tape, differ when
the wall-clock reading differs, because the shoot cooldown compares
performance.now readings rather than a dt-driven countdown: at now = 10
a bullet is fired, at now = 1/10 none is. -/
theorem C3_counterexample :
    (Game.update (fun _ => 0) shootReadyState 1 10 0).1.bullets.length = 1 ∧
    (Game.update (fun _ => 0) shootReadyState 1 (1 / 10) 0).1.bullets.length = 0 ∧
    (Game.update (fun _ => 0) shootReadyState 1 10 0).1
      ≠ (Game.update (fun _ => 0) shootReadyState 1 (1 / 10) 0).1 := by
  have h1 : (Game.update (fun _ => 0) shootReadyState 1 10 0).1.bullets.length = 1 := by
    norm_num [Game.update, Game.shootStep, shootReadyState, Game.new, Game.restart,
      Player.init, Tutorial.init, Tutorial.playerShot, Tutorial.update, movementScan,
      Player.update, Player.shoot, Trail.push, Trail.update, Trail.evict,
      Game.collisionPass, Game.spawnScheduler, Game.spawnEnemy, Bullet.update,
      RendererState.setTarget, RendererState.update, V2.add, V2.sub, V2.scale,
      V2.normalize, V2.len, Real.sqrt_zero, PLAYER_MAX_HEALTH, PLAYER_SHOOT_COOLDOWN,
      TUTORIAL_POPUP_SPEED, BULLET_LIFETIME, TRAIL_COOLDOWN, PLAYER_TRAIL_RATE,
      ENEMY_SPAWN_COOLDOWN, PLAYER_SPEED, List.range_zero, List.filter_cons,
      List.filter_nil, decide_eq_true_eq]
  have h2 : (Game.update (fun _ => 0) shootReadyState 1 (1 / 10) 0).1.bullets.length = 0 := by
    norm_num [Game.update, Game.shootStep, shootReadyState, Game.new, Game.restart,
      Player.init, Tutorial.init, Tutorial.playerShot, Tutorial.update, movementScan,
      Player.update, Player.shoot, Trail.push, Trail.update, Trail.evict,
      Game.collisionPass, Game.spawnScheduler, Game.spawnEnemy, Bullet.update,
      RendererState.setTarget, RendererState.update, V2.add, V2.sub, V2.scale,
      V2.normalize, V2.len, Real.sqrt_zero, PLAYER_MAX_HEALTH, PLAYER_SHOOT_COOLDOWN,
      TUTORIAL_POPUP_SPEED, BULLET_LIFETIME, TRAIL_COOLDOWN, PLAYER_TRAIL_RATE,
      ENEMY_SPAWN_COOLDOWN, PLAYER_SPEED, List.range_zero, List.filter_cons,
      List.filter_nil, decide_eq_true_eq]
  refine ⟨h1, h2, fun he => ?_⟩
  rw [he] at h1
  rw [h2] at h1
  exact absurd h1 (by norm_num)

/-- C3 amended: the spawn cooldown, trail sampling interval and popup
fade advance only by dt, but the shoot gate compares wall-clock readings
and particle bursts and spawn angles consume random draws; determinism
holds as a two-run statement over Game.run once the wall-clock readings
and the random tape are fixed along with the dt sequence and inputs, and
the wall clock can influence a frame only through the shooting branch:
with the shooting flag down, Game.update does not depend on now at all. -/
theorem C3_determinism (tape : ℕ → ℝ) (frames : List (ℝ × ℝ))
    (sk sk' : GameState × ℕ) (h : sk = sk') :
    Game.run tape frames sk = Game.run tape frames sk' ∧
    (∀ (s : GameState) (dt now1 now2 : ℝ) (k : ℕ), s.player.shooting = false →
      Game.update tape s dt now1 k = Game.update tape s dt now2 k) := by
  constructor
  · rw [h]
  · intro s dt now1 now2 k hs
    have hshoot : ∀ (d : ℝ) (v : V2), (s.player.update d v).shooting = false :=
      fun _ _ => hs
    by_cases hp : s.paused = true
    · rw [Game.update, if_pos hp, Game.update, if_pos hp]
    · rw [Game.update, if_neg hp, Game.update, if_neg hp]
      simp only [Game.shootStep_noshoot _ _ _ _ (hshoot _ _)]

/-- Witness for C3: a pinned run and a concrete no-shooting state. -/
theorem C3_determinism_witness :
    Game.run (fun _ => 0) [(1, 0)]
        (Game.new (some 2) ⟨⟨0, 0⟩, ⟨0, 0⟩, 0, 1, 100, 100⟩, 0)
      = Game.run (fun _ => 0) [(1, 0)]
        (Game.new (some 2) ⟨⟨0, 0⟩, ⟨0, 0⟩, 0, 1, 100, 100⟩, 0) ∧
    ((Game.new (some 2) ⟨⟨0, 0⟩, ⟨0, 0⟩, 0, 1, 100, 100⟩).player.shooting = false ∧
      Game.update (fun _ => 0) (Game.new (some 2) ⟨⟨0, 0⟩, ⟨0, 0⟩, 0, 1, 100, 100⟩) 1 3 0
        = Game.update (fun _ => 0) (Game.new (some 2) ⟨⟨0, 0⟩, ⟨0, 0⟩, 0, 1, 100, 100⟩) 1 7 0) :=
  ⟨(C3_determinism (fun _ => 0) [(1, 0)]
      (Game.new (some 2) ⟨⟨0, 0⟩, ⟨0, 0⟩, 0, 1, 100, 100⟩, 0)
      (Game.new (some 2) ⟨⟨0, 0⟩, ⟨0, 0⟩, 0, 1, 100, 100⟩, 0) rfl).1,
    rfl,
    (C3_determinism (fun _ => 0) [] ((Game.new (some 2) ⟨⟨0, 0⟩, ⟨0, 0⟩, 0, 1, 100, 100⟩), 0)
      ((Game.new (some 2) ⟨⟨0, 0⟩, ⟨0, 0⟩, 0, 1, 100, 100⟩), 0) rfl).2
      (Game.new (some 2) ⟨⟨0, 0⟩, ⟨0, 0⟩, 0, 1, 100, 100⟩) 1 3 7 0 rfl⟩

/-- Witness for C10 at the freshly constructed game with the shooting
flag raised. -/
theorem C10_mouseMove_faults_witness :
    ({ Game.new none ⟨⟨0, 0⟩, ⟨0, 0⟩, 0, 1, 100, 100⟩ with
        player := { (Game.new none ⟨⟨0, 0⟩, ⟨0, 0⟩, 0, 1, 100, 100⟩).player with
          shooting := true } } : GameState).paused = false ∧
    ({ Game.new none ⟨⟨0, 0⟩, ⟨0, 0⟩, 0, 1, 100, 100⟩ with
        player := { (Game.new none ⟨⟨0, 0⟩, ⟨0, 0⟩, 0, 1, 100, 100⟩).player with
          shooting := true } } : GameState).camera = none ∧
    Game.mouseMove
      { Game.new none ⟨⟨0, 0⟩, ⟨0, 0⟩, 0, 1, 100, 100⟩ with
        player := { (Game.new none ⟨⟨0, 0⟩, ⟨0, 0⟩, 0, 1, 100, 100⟩).player with
          shooting := true } } ⟨5, 5⟩ =
      .error "TypeError: cannot read screenToWorld of undefined" :=
  ⟨rfl, rfl, C10_mouseMove_faults.2.2.2
    { Game.new none ⟨⟨0, 0⟩, ⟨0, 0⟩, 0, 1, 100, 100⟩ with
      player := { (Game.new none ⟨⟨0, 0⟩, ⟨0, 0⟩, 0, 1, 100, 100⟩).player with
        shooting := true } } ⟨5, 5⟩ rfl rfl rfl⟩
